import Mathlib

/-!
Verification of the MarkItDown API conversion gateway (`src/main.py`)
against its natural-language specification.

The whole service is one FastAPI module. We embed the request pipeline of
the `/convert` endpoint (dependency `verify_token`, the handler
`convert_file_to_markdown`) and the `/health` endpoint as pure Lean
functions. Python exception flow is made explicit: each handler branch
returns the HTTP response that FastAPI would send, together with the
resulting scratch-file state and a trace of the side effects performed.
-/

set_option autoImplicit false

namespace MarkitdownAPI

/-- Result object returned by the external conversion engine
(`md_converter.convert`). `text_content` models the `text_content`
attribute; `title` models `getattr(result, 'title', None)`: `none` stands
for the attribute being absent or `None`. -/
structure ConversionResult where
  text_content : String
  title : Option String
  deriving Repr, DecidableEq

/-- Outcome of one engine invocation: a result object, or a raised
engine-specific exception carrying a human-readable message. -/
abbrev EngineOutcome := Except String ConversionResult

/-- Metadata block of the success response body (`main.py` lines 104-107). -/
structure RespMetadata where
  title : Option String
  content_length : Nat
  deriving Repr, DecidableEq

/-- Success response body of `/convert` (`main.py` lines 99-108). -/
structure SuccessBody where
  success : Bool
  filename : String
  file_size : Nat
  markdown : String
  metadata : RespMetadata
  deriving Repr, DecidableEq

/-- HTTP response produced by the endpoint: a 200 JSON body, or an error
response with a status code and a `detail` string (what FastAPI sends for
a raised `HTTPException`). -/
inductive HTTPResponse where
  | ok (body : SuccessBody)
  | error (statusCode : Nat) (detail : String)
  deriving Repr, DecidableEq

/-- Status code of a response; a plain 200 for the JSON success body. -/
def respStatus : HTTPResponse → Nat
  | .ok _ => 200
  | .error s _ => s

/-- Detail string of an error response; `none` for a success body. -/
def respDetail : HTTPResponse → Option String
  | .ok _ => none
  | .error _ d => d

/-- Markdown field of a success response; `none` for an error response. -/
def respMarkdown : HTTPResponse → Option String
  | .ok b => some b.markdown
  | .error _ _ => none

/-- Incoming `/convert` request. `auth` is the parsed `Authorization`
header as a (scheme, credentials) pair, `none` when the header is missing
or could not be split; `filename` is the declared upload filename (the
empty string models an absent filename); `content` is the uploaded byte
sequence. -/
structure Request where
  auth : Option (String × String)
  filename : String
  content : List Nat
  deriving Repr, DecidableEq

/-- Scratch-file state: the set of files currently present in the scratch
directory, and the counter from which the next fresh scratch name is
drawn. -/
structure FS where
  files : List String
  nextTemp : Nat
  deriving Repr, DecidableEq

/-- Side effects performed while handling a request, in execution order. -/
inductive Event where
  | stage (path : String)
  | engineCall (suffix : String) (content : List Nat)
  | unlinkTry (path : String) (ok : Bool)
  deriving Repr, DecidableEq

/-- Environment a request runs in: the `API_TOKEN` process environment
variable (`none` when unset), the external engine (a function of the
staged file's extension and bytes — this function form is exactly the
deterministic-engine assumption of the spec), whether writing the staged
bytes raises (`some msg` models an I/O error with message `msg`), and the
outcome of the n-th `os.unlink` call of the request (`some msg` models a
raised `OSError(msg)`). -/
structure ConvEnv where
  apiTokenEnv : Option String
  engine : String → List Nat → EngineOutcome
  writeErr : Option String
  unlinkErr : Nat → Option String

/-- Configured secret: `os.getenv("API_TOKEN", "your-secret-token-here")`,
`main.py` line 23. -/
def API_TOKEN (envVar : Option String) : String :=
  envVar.getD "your-secret-token-here"

/-- Character-wise ASCII lowercasing, modelling Python's `str.lower()` on
the ASCII scheme names that appear in an Authorization header. -/
def strLower (s : String) : String :=
  String.mk (s.data.map Char.toLower)

/-- Models `fastapi.security.HTTPBearer.__call__` with `auto_error=True`
(the `security` dependency, `main.py` line 20): a missing header, an empty
scheme or empty credentials raise 403 "Not authenticated"; a scheme other
than case-insensitive "bearer" raises 403 "Invalid authentication
credentials"; otherwise the credentials are returned. -/
def httpBearer (auth : Option (String × String)) : Except (Nat × String) String :=
  match auth with
  | none => .error (403, "Not authenticated")
  | some (scheme, creds) =>
    if scheme = "" ∨ creds = "" then .error (403, "Not authenticated")
    else if strLower scheme ≠ "bearer" then .error (403, "Invalid authentication credentials")
    else .ok creds

/-- The `verify_token` dependency (`main.py` lines 28-36): the bearer
credentials must equal the configured token exactly, else
401 "Invalid authentication token". -/
def verify_token (apiToken : String) (auth : Option (String × String)) :
    Except (Nat × String) String :=
  match httpBearer auth with
  | .error e => .error e
  | .ok creds =>
    if creds ≠ apiToken then .error (401, "Invalid authentication token")
    else .ok creds

/-- Extension part of `os.path.splitext(p)[1]`: the suffix starting at the
last dot of the basename, provided some earlier character of the basename
is not a dot (so `report.docx ↦ .docx`, `.bashrc ↦ empty`). -/
def splitextExt (p : String) : String :=
  let base := (p.data.reverse.takeWhile (fun c => c ≠ '/')).reverse
  let revb := base.reverse
  if base.contains '.' then
    let post := (revb.takeWhile (fun c => c ≠ '.')).reverse
    let preRev := (revb.dropWhile (fun c => c ≠ '.')).drop 1
    if preRev.any (fun c => c ≠ '.') then String.mk ('.' :: post) else ""
  else ""

/-- Fresh scratch path allocated by `tempfile.NamedTemporaryFile` for
counter value `n`, preserving the upload's extension as `suffix`
(`main.py` line 88). The library guarantees a name distinct from every
other allocation; we model that uniqueness by embedding the allocation
counter into the name. -/
def tempName (n : Nat) (suffix : String) : String :=
  "/tmp/stage" ++ String.mk (List.replicate n 'x') ++ suffix

/-- Everything a request run produces: the HTTP response, the final
scratch-file state, and the trace of side effects. -/
structure ConvOutput where
  resp : HTTPResponse
  fs : FS
  events : List Event
  deriving Repr, DecidableEq

/-- The `POST /convert` handler (`main.py` lines 60-126), with Python's
exception flow made explicit.

Faithfulness notes: the `verify_token` dependency runs before the handler
body; the filename guard raises 400; the staged write failure and, because
FastAPI's `HTTPException` is a subclass of `Exception`, also the inner
handler's own `HTTPException(422, ...)` and any `OSError` escaping the
inner `except` block are caught by the outer `except Exception` (line 121),
which re-raises 500 with detail `"Internal server error: " + str(e)`;
`str` of an `HTTPException(422, d)` is `"422: " + d`. -/
def convert_file_to_markdown (env : ConvEnv) (fs0 : FS) (req : Request) : ConvOutput :=
  match verify_token (API_TOKEN env.apiTokenEnv) req.auth with
  | .error e => ⟨.error e.1 e.2, fs0, []⟩
  | .ok _ =>
  if req.filename = "" then ⟨.error 400 "No file provided", fs0, []⟩
  else
    let suffix := splitextExt req.filename
    let path := tempName fs0.nextTemp suffix
    let fs1 : FS := ⟨path :: fs0.files, fs0.nextTemp + 1⟩
    match env.writeErr with
    | some msg =>
      -- temp_file.write raised inside the with-block: caught at line 121;
      -- the staged file is left behind.
      ⟨.error 500 ("Internal server error: " ++ msg), fs1, [.stage path]⟩
    | none =>
      match env.engine suffix req.content with
      | .error emsg =>
        -- lines 110-119: cleanup, then raise HTTPException(422, ...),
        -- which line 121 re-wraps into a 500.
        if path ∈ fs1.files then
          match env.unlinkErr 0 with
          | none =>
            ⟨.error 500 ("Internal server error: 422: Failed to convert file: " ++ emsg),
             ⟨fs1.files.erase path, fs1.nextTemp⟩,
             [.stage path, .engineCall suffix req.content, .unlinkTry path true]⟩
          | some umsg =>
            ⟨.error 500 ("Internal server error: " ++ umsg), fs1,
             [.stage path, .engineCall suffix req.content, .unlinkTry path false]⟩
        else
          ⟨.error 500 ("Internal server error: 422: Failed to convert file: " ++ emsg), fs1,
           [.stage path, .engineCall suffix req.content]⟩
      | .ok result =>
        match env.unlinkErr 0 with
        | none =>
          ⟨.ok { success := true, filename := req.filename,
                 file_size := req.content.length,
                 markdown := result.text_content,
                 metadata := { title := result.title,
                               content_length := result.text_content.length } },
           ⟨fs1.files.erase path, fs1.nextTemp⟩,
           [.stage path, .engineCall suffix req.content, .unlinkTry path true]⟩
        | some umsg =>
          -- os.unlink at line 97 raised: the inner except treats it as a
          -- conversion error, retries cleanup, and its eventual raise is
          -- re-wrapped into a 500 by line 121.
          if path ∈ fs1.files then
            match env.unlinkErr 1 with
            | none =>
              ⟨.error 500 ("Internal server error: 422: Failed to convert file: " ++ umsg),
               ⟨fs1.files.erase path, fs1.nextTemp⟩,
               [.stage path, .engineCall suffix req.content,
                .unlinkTry path false, .unlinkTry path true]⟩
            | some umsg2 =>
              ⟨.error 500 ("Internal server error: " ++ umsg2), fs1,
               [.stage path, .engineCall suffix req.content,
                .unlinkTry path false, .unlinkTry path false]⟩
          else
            ⟨.error 500 ("Internal server error: 422: Failed to convert file: " ++ umsg), fs1,
             [.stage path, .engineCall suffix req.content]⟩

/-- Scratch paths staged during a run, read off the event trace. -/
def stagedPaths (o : ConvOutput) : List String :=
  o.events.filterMap fun e =>
    match e with
    | .stage p => some p
    | _ => none

/-- Engine invocations performed during a run, read off the event trace. -/
def engineCalls (o : ConvOutput) : List Event :=
  o.events.filter fun e =>
    match e with
    | .engineCall _ _ => true
    | _ => false

/-- Body of the `GET /health` response (`main.py` lines 128-131). -/
structure HealthBody where
  status : String
  service : String
  deriving Repr, DecidableEq

/-- The `GET /health` handler: no dependency, no state; FastAPI sends the
returned dict with status 200. -/
def health_check : Nat × HealthBody :=
  (200, { status := "healthy", service := "markitdown-api" })

/-! Concrete fixtures used by witnesses and counterexamples. -/

/-- Engine that always returns the same result object, no title attribute. -/
def engineFixed : String → List Nat → EngineOutcome :=
  fun _ _ => .ok ⟨"# Report", none⟩

/-- Engine that always raises, with message "boom". -/
def engineBoom : String → List Nat → EngineOutcome :=
  fun _ _ => .error "boom"

/-- Every unlink call succeeds. -/
def noUnlinkErr : Nat → Option String := fun _ => none

/-- Every unlink call raises `OSError("Permission denied")`. -/
def unlinkDenied : Nat → Option String := fun _ => some "Permission denied"

/-- Environment with secret "secret", well-behaved engine and filesystem. -/
def envOk : ConvEnv := ⟨some "secret", engineFixed, none, noUnlinkErr⟩

/-- Environment whose engine raises "boom". -/
def envBoom : ConvEnv := ⟨some "secret", engineBoom, none, noUnlinkErr⟩

/-- Environment whose engine succeeds but whose unlink calls all raise. -/
def envNoUnlink : ConvEnv := ⟨some "secret", engineFixed, none, unlinkDenied⟩

/-- A well-formed request carrying the correct bearer token. -/
def reqOk : Request := ⟨some ("Bearer", "secret"), "report.docx", [104, 105]⟩

/-- The same request with a wrong bearer token. -/
def reqWrongTok : Request := ⟨some ("Bearer", "nope"), "report.docx", [104, 105]⟩

/-- The same request with no Authorization header at all. -/
def reqNoAuth : Request := ⟨none, "report.docx", [104, 105]⟩

/-- Authenticated request whose filename is empty. -/
def reqNoName : Request := ⟨some ("Bearer", "secret"), "", [104, 105]⟩

/-- Request with both a wrong token and an empty filename. -/
def reqNoNameBadTok : Request := ⟨some ("Bearer", "nope"), "", [104, 105]⟩

/-- Empty scratch directory. -/
def fsEmpty : FS := ⟨[], 0⟩

/-! Sanity checks of the extension model against `os.path.splitext`. -/

example : splitextExt "report.docx" = ".docx" := by decide
example : splitextExt ".bashrc" = "" := by decide
example : splitextExt "archive.tar.gz" = ".gz" := by decide
example : splitextExt "noext" = "" := by decide

/-! General lemmas about the model. -/

/-- Length of an allocated scratch path is determined by the counter. -/
theorem tempName_length (n : Nat) (s : String) :
    (tempName n s).length = 10 + n + s.length := by
  have h10 : ("/tmp/stage" : String).length = 10 := by decide
  have hx : (String.mk (List.replicate n 'x')).length = n := by
    simp [String.length]
  simp [tempName, String.length_append, h10, hx]

/-- Distinct allocation counters yield distinct scratch paths. -/
theorem tempName_ne (m n : Nat) (s : String) (h : m ≠ n) :
    tempName m s ≠ tempName n s := by
  intro he
  apply h
  have hl := congrArg String.length he
  rw [tempName_length, tempName_length] at hl
  omega

/-- Full evaluation of the handler on the nominal path: correct token,
non-empty filename, staged write succeeds, engine returns `result`, the
cleanup unlink succeeds. The scratch file is created and then erased, one
engine call happens, and the success body is exactly the one built at
`main.py` lines 99-108. -/
theorem convert_success_eq (env : ConvEnv) (fs0 : FS) (req : Request)
    (t : String) (result : ConversionResult)
    (hauth : verify_token (API_TOKEN env.apiTokenEnv) req.auth = .ok t)
    (hfn : ¬ req.filename = "")
    (hw : env.writeErr = none)
    (heng : env.engine (splitextExt req.filename) req.content = .ok result)
    (hul : env.unlinkErr 0 = none) :
    convert_file_to_markdown env fs0 req =
      ⟨.ok { success := true, filename := req.filename,
             file_size := req.content.length,
             markdown := result.text_content,
             metadata := { title := result.title,
                           content_length := result.text_content.length } },
       ⟨fs0.files, fs0.nextTemp + 1⟩,
       [.stage (tempName fs0.nextTemp (splitextExt req.filename)),
        .engineCall (splitextExt req.filename) req.content,
        .unlinkTry (tempName fs0.nextTemp (splitextExt req.filename)) true]⟩ := by
  unfold convert_file_to_markdown
  rw [hauth]
  simp only [hfn, if_false, ite_false, hw, heng, hul, List.erase_cons_head]

/-- C4: for every request with a correct bearer token (the `verify_token`
dependency succeeds), a non-empty filename, a successful staging write and
a successful engine call (with cleanup succeeding), the response carries
`success = true`, the uploaded filename, the exact byte length of the
uploaded content as `file_size`, the engine's extracted text as
`markdown`, and `metadata.content_length` equal to the character length of
`markdown`. -/
theorem convert_success_response_fields (env : ConvEnv) (fs0 : FS) (req : Request)
    (t : String) (result : ConversionResult)
    (hauth : verify_token (API_TOKEN env.apiTokenEnv) req.auth = .ok t)
    (hfn : ¬ req.filename = "")
    (hw : env.writeErr = none)
    (heng : env.engine (splitextExt req.filename) req.content = .ok result)
    (hul : env.unlinkErr 0 = none) :
    (convert_file_to_markdown env fs0 req).resp =
      .ok { success := true, filename := req.filename,
            file_size := req.content.length,
            markdown := result.text_content,
            metadata := { title := result.title,
                          content_length := result.text_content.length } } := by
  rw [convert_success_eq env fs0 req t result hauth hfn hw heng hul]

/-- Witness for C4 at a concrete request: token "secret", filename
"report.docx", two content bytes, engine returning "# Report". -/
theorem convert_success_response_fields_witness :
    (convert_file_to_markdown envOk fsEmpty reqOk).resp =
      .ok { success := true, filename := "report.docx", file_size := 2,
            markdown := "# Report",
            metadata := { title := none, content_length := 8 } } :=
  convert_success_response_fields envOk fsEmpty reqOk "secret" ⟨"# Report", none⟩
    (by rfl) (by decide) rfl (by rfl) rfl

/-- C10: when the engine's result object has no `title` attribute
(modelled by `result.title = none`, matching `getattr(result, 'title',
None)`), the success response's `metadata.title` is exactly `none`, and
the response is still the full success body. -/
theorem convert_missing_title_is_null (env : ConvEnv) (fs0 : FS) (req : Request)
    (t : String) (result : ConversionResult)
    (hauth : verify_token (API_TOKEN env.apiTokenEnv) req.auth = .ok t)
    (hfn : ¬ req.filename = "")
    (hw : env.writeErr = none)
    (heng : env.engine (splitextExt req.filename) req.content = .ok result)
    (htitle : result.title = none)
    (hul : env.unlinkErr 0 = none) :
    (convert_file_to_markdown env fs0 req).resp =
      .ok { success := true, filename := req.filename,
            file_size := req.content.length,
            markdown := result.text_content,
            metadata := { title := none,
                          content_length := result.text_content.length } } := by
  rw [convert_success_eq env fs0 req t result hauth hfn hw heng hul, htitle]

/-- Witness for C10 at a concrete request whose engine result exposes no
title attribute. -/
theorem convert_missing_title_is_null_witness :
    (convert_file_to_markdown envOk fsEmpty reqOk).resp =
      .ok { success := true, filename := "report.docx", file_size := 2,
            markdown := "# Report",
            metadata := { title := none, content_length := 8 } } :=
  convert_missing_title_is_null envOk fsEmpty reqOk "secret" ⟨"# Report", none⟩
    (by rfl) (by decide) rfl (by rfl) rfl rfl

/-- C9: the `/health` endpoint takes no input, performs no side effects,
requires no authentication dependency, and always returns status 200 with
exactly the fixed body. -/
theorem health_check_fixed :
    health_check = (200, { status := "healthy", service := "markitdown-api" }) := rfl

/-- C5: for every request whose filename is empty, if authentication
succeeds the handler returns 400 "No file provided" with no side effects
at all (no staging, no engine call); and if authentication fails the
authentication error is returned instead — the filename guard is
evaluated only after the authentication guard. -/
theorem empty_filename_rejected (env : ConvEnv) (fs0 : FS) (req : Request)
    (hfn : req.filename = "") :
    (∀ t, verify_token (API_TOKEN env.apiTokenEnv) req.auth = .ok t →
      convert_file_to_markdown env fs0 req = ⟨.error 400 "No file provided", fs0, []⟩)
    ∧ ∀ e, verify_token (API_TOKEN env.apiTokenEnv) req.auth = .error e →
      convert_file_to_markdown env fs0 req = ⟨.error e.1 e.2, fs0, []⟩ := by
  constructor
  · intro t ht
    unfold convert_file_to_markdown
    rw [ht, hfn]
    simp
  · intro e he
    unfold convert_file_to_markdown
    rw [he]

/-- Witness for C5: an authenticated empty-filename request yields the
400 with an empty trace; with a wrong token and an empty filename the 401
wins. -/
theorem empty_filename_rejected_witness :
    convert_file_to_markdown envOk fsEmpty reqNoName
      = ⟨.error 400 "No file provided", fsEmpty, []⟩
    ∧ convert_file_to_markdown envOk fsEmpty reqNoNameBadTok
      = ⟨.error 401 "Invalid authentication token", fsEmpty, []⟩ :=
  ⟨(empty_filename_rejected envOk fsEmpty reqNoName rfl).1 "secret" (by rfl),
   (empty_filename_rejected envOk fsEmpty reqNoNameBadTok rfl).2
     (401, "Invalid authentication token") (by rfl)⟩

/-- Counterexample to C2 as stated: a request with no Authorization
header is answered 403 "Not authenticated" (raised by the `HTTPBearer`
security dependency), not 401. -/
theorem missing_token_status_counterexample :
    respStatus (convert_file_to_markdown envOk fsEmpty reqNoAuth).resp = 403
    ∧ respStatus (convert_file_to_markdown envOk fsEmpty reqNoAuth).resp ≠ 401 := by
  constructor
  · rfl
  · decide

/-- C2 (amended): a request with a missing Authorization header is
rejected with 403 "Not authenticated" by the bearer security scheme, and
a request presenting a wrong bearer token is rejected with 401 "Invalid
authentication token"; in both cases the handler body never runs — no
scratch file is created, the filesystem is untouched and the trace is
empty, regardless of the payload. -/
theorem auth_failure_no_side_effects (env : ConvEnv) (fs0 : FS) (req : Request) :
    (req.auth = none →
      convert_file_to_markdown env fs0 req = ⟨.error 403 "Not authenticated", fs0, []⟩)
    ∧ ∀ s c, req.auth = some (s, c) → ¬ c = "" → strLower s = "bearer" →
        ¬ c = API_TOKEN env.apiTokenEnv →
        convert_file_to_markdown env fs0 req
          = ⟨.error 401 "Invalid authentication token", fs0, []⟩ := by
  constructor
  · intro h
    unfold convert_file_to_markdown verify_token httpBearer
    rw [h]
  · intro s c hsc hce hsl hct
    have hs : ¬ s = "" := by
      intro h
      rw [h] at hsl
      exact absurd hsl (by decide)
    unfold convert_file_to_markdown verify_token httpBearer
    rw [hsc]
    simp [hs, hce, hsl, hct]

/-- Witness for C2 (amended): concrete missing-header and wrong-token
requests. -/
theorem auth_failure_no_side_effects_witness :
    convert_file_to_markdown envOk fsEmpty reqNoAuth
      = ⟨.error 403 "Not authenticated", fsEmpty, []⟩
    ∧ convert_file_to_markdown envOk fsEmpty reqWrongTok
      = ⟨.error 401 "Invalid authentication token", fsEmpty, []⟩ :=
  ⟨(auth_failure_no_side_effects envOk fsEmpty reqNoAuth).1 rfl,
   (auth_failure_no_side_effects envOk fsEmpty reqWrongTok).2 "Bearer" "nope"
     rfl (by decide) (by rfl) (by decide)⟩

/-- C1, evaluated at the failing input: an authenticated request with
filename "report.docx" whose engine raises "boom" is answered with status
500, not 422 — the handler's own `HTTPException(422, ...)` raised at
`main.py` line 116 is itself an `Exception`, so the enclosing
`except Exception` at line 121 catches it and re-raises 500. The engine's
message still reaches the caller inside the 500 detail. -/
theorem engine_failure_maps_to_500 :
    respStatus (convert_file_to_markdown envBoom fsEmpty reqOk).resp = 500
    ∧ respDetail (convert_file_to_markdown envBoom fsEmpty reqOk).resp
        = some "Internal server error: 422: Failed to convert file: boom" :=
  ⟨by rfl, by rfl⟩

/-- Counterexample to C6 as stated: engine succeeds, but every unlink
raises `OSError("Permission denied")`; the caller receives a 500 error
response, not the success body, and the scratch file is left behind. -/
theorem unlink_failure_not_ignored_counterexample :
    convert_file_to_markdown envNoUnlink fsEmpty reqOk
      = ⟨.error 500 "Internal server error: Permission denied",
         ⟨["/tmp/stage.docx"], 1⟩,
         [.stage "/tmp/stage.docx", .engineCall ".docx" [104, 105],
          .unlinkTry "/tmp/stage.docx" false, .unlinkTry "/tmp/stage.docx" false]⟩ := by
  rfl

/-- C6 (amended): a failure of the scratch-file delete after a successful
engine call IS escalated to the caller — the `os.unlink` exception at
`main.py` line 97 is caught by the inner conversion-error handler and the
request ends in a 500 error response instead of the success body. -/
theorem unlink_failure_escalated (env : ConvEnv) (fs0 : FS) (req : Request)
    (t : String) (result : ConversionResult) (msg : String)
    (hauth : verify_token (API_TOKEN env.apiTokenEnv) req.auth = .ok t)
    (hfn : ¬ req.filename = "")
    (hw : env.writeErr = none)
    (heng : env.engine (splitextExt req.filename) req.content = .ok result)
    (hul : env.unlinkErr 0 = some msg) :
    respStatus (convert_file_to_markdown env fs0 req).resp = 500
    ∧ respMarkdown (convert_file_to_markdown env fs0 req).resp = none := by
  unfold convert_file_to_markdown
  rw [hauth]
  simp only [hfn, if_false, ite_false, hw, heng, hul]
  cases h2 : env.unlinkErr 1 with
  | none => simp [h2, respStatus, respMarkdown]
  | some m2 => simp [h2, respStatus, respMarkdown]

/-- Witness for C6 (amended) at the concrete permission-denied
environment. -/
theorem unlink_failure_escalated_witness :
    respStatus (convert_file_to_markdown envNoUnlink fsEmpty reqOk).resp = 500
    ∧ respMarkdown (convert_file_to_markdown envNoUnlink fsEmpty reqOk).resp = none :=
  unlink_failure_escalated envNoUnlink fsEmpty reqOk "secret" ⟨"# Report", none⟩
    "Permission denied" (by rfl) (by decide) rfl (by rfl) rfl

/-- C3: provided the staged write and the unlink calls themselves succeed
and freshly allocated scratch names are genuinely new, every request run
leaves the scratch directory exactly as it found it (the scratch file is
deleted before returning, on the engine-success path and on the
engine-failure path alike), at most one scratch file is staged during the
request, and no staged path remains in the final state. -/
theorem scratch_file_cleanup (env : ConvEnv) (fs0 : FS) (req : Request)
    (hw : env.writeErr = none)
    (hul : ∀ n, env.unlinkErr n = none)
    (hfresh : ∀ s, tempName fs0.nextTemp s ∉ fs0.files) :
    (convert_file_to_markdown env fs0 req).fs.files = fs0.files
    ∧ (stagedPaths (convert_file_to_markdown env fs0 req)).length ≤ 1
    ∧ ∀ p ∈ stagedPaths (convert_file_to_markdown env fs0 req),
        p ∉ (convert_file_to_markdown env fs0 req).fs.files := by
  unfold convert_file_to_markdown
  cases hv : verify_token (API_TOKEN env.apiTokenEnv) req.auth with
  | error e => simp [stagedPaths]
  | ok t =>
    by_cases hfn : req.filename = ""
    · simp [hfn, stagedPaths]
    · rw [hw, hul 0]
      cases heng : env.engine (splitextExt req.filename) req.content with
      | error emsg => simp [heng, hfn, stagedPaths, List.erase_cons_head, hfresh]
      | ok result => simp [heng, hfn, stagedPaths, List.erase_cons_head, hfresh]

/-- Witness for C3: on the concrete nominal request the scratch directory
is restored exactly. -/
theorem scratch_file_cleanup_witness :
    (convert_file_to_markdown envOk fsEmpty reqOk).fs.files = fsEmpty.files :=
  (scratch_file_cleanup envOk fsEmpty reqOk rfl (fun _ => rfl)
    (fun _ => List.not_mem_nil _)).1

/-- C7: for any presented bearer credential (well-formed bearer scheme,
non-empty credential string), authentication succeeds exactly when the
credential equals the configured secret by string equality; the secret is
the `API_TOKEN` process environment variable, and it takes the fixed
placeholder value "your-secret-token-here" when that variable is unset. -/
theorem token_equality_auth (envVar : Option String) (scheme c : String)
    (hc : ¬ c = "") (hs : strLower scheme = "bearer") :
    (verify_token (API_TOKEN envVar) (some (scheme, c)) = .ok c
      ↔ c = API_TOKEN envVar)
    ∧ API_TOKEN none = "your-secret-token-here"
    ∧ ∀ v, API_TOKEN (some v) = v := by
  have hs0 : ¬ scheme = "" := by
    intro h
    rw [h] at hs
    exact absurd hs (by decide)
  refine ⟨?_, rfl, fun v => rfl⟩
  unfold verify_token httpBearer
  by_cases hct : c = API_TOKEN envVar
  · subst hct
    simp [hs0, hc, hs]
  · simp [hs0, hc, hs, hct]

/-- Witness for C7 at the concrete secret "secret" presented through a
"Bearer" header. -/
theorem token_equality_auth_witness :
    verify_token (API_TOKEN (some "secret")) (some ("Bearer", "secret")) = .ok "secret"
      ↔ "secret" = API_TOKEN (some "secret") :=
  (token_equality_auth (some "secret") "Bearer" "secret" (by decide) (by decide)).1

/-- C8: running the same request twice — identical bytes, identical
filename — against the same engine (a function, hence deterministic)
yields the same extracted markdown in both success responses, while the
two runs stage two distinct scratch paths. -/
theorem repeat_request_deterministic (env : ConvEnv) (fs0 : FS) (req : Request)
    (t : String) (result : ConversionResult)
    (hauth : verify_token (API_TOKEN env.apiTokenEnv) req.auth = .ok t)
    (hfn : ¬ req.filename = "")
    (hw : env.writeErr = none)
    (heng : env.engine (splitextExt req.filename) req.content = .ok result)
    (hul : env.unlinkErr 0 = none) :
    respMarkdown (convert_file_to_markdown env fs0 req).resp = some result.text_content
    ∧ respMarkdown (convert_file_to_markdown env
        (convert_file_to_markdown env fs0 req).fs req).resp = some result.text_content
    ∧ stagedPaths (convert_file_to_markdown env fs0 req)
        = [tempName fs0.nextTemp (splitextExt req.filename)]
    ∧ stagedPaths (convert_file_to_markdown env
        (convert_file_to_markdown env fs0 req).fs req)
        = [tempName (fs0.nextTemp + 1) (splitextExt req.filename)]
    ∧ tempName fs0.nextTemp (splitextExt req.filename)
        ≠ tempName (fs0.nextTemp + 1) (splitextExt req.filename) := by
  have h1 := convert_success_eq env fs0 req t result hauth hfn hw heng hul
  have h2 := convert_success_eq env ⟨fs0.files, fs0.nextTemp + 1⟩ req t result
    hauth hfn hw heng hul
  refine ⟨?_, ?_, ?_, ?_, tempName_ne _ _ _ (by omega)⟩ <;>
    simp [h1, h2, respMarkdown, stagedPaths]

/-- Witness for C8: two consecutive runs of the concrete nominal request
return the same markdown and use the distinct scratch paths
"/tmp/stage.docx" and "/tmp/stagex.docx". -/
theorem repeat_request_deterministic_witness :
    respMarkdown (convert_file_to_markdown envOk fsEmpty reqOk).resp = some "# Report"
    ∧ respMarkdown (convert_file_to_markdown envOk
        (convert_file_to_markdown envOk fsEmpty reqOk).fs reqOk).resp = some "# Report"
    ∧ stagedPaths (convert_file_to_markdown envOk fsEmpty reqOk) = ["/tmp/stage.docx"]
    ∧ stagedPaths (convert_file_to_markdown envOk
        (convert_file_to_markdown envOk fsEmpty reqOk).fs reqOk) = ["/tmp/stagex.docx"]
    ∧ "/tmp/stage.docx" ≠ "/tmp/stagex.docx" :=
  repeat_request_deterministic envOk fsEmpty reqOk "secret" ⟨"# Report", none⟩
    (by rfl) (by decide) rfl (by rfl) rfl

end MarkitdownAPI
